import Mathlib

/-!
# nrfcomm — verification of the protocol/transport core

Shallow embedding of the nrfcomm radio-link protocol (Go sources under
`protocol/` and `transport/`) and proofs of the spec's testable properties.

Bytes are modelled as `Nat` (Go `byte` values are always `< 256`; theorems
carry that bound as a hypothesis where it matters).  Go `uint32` arithmetic
is modelled as `Nat` with explicit `% 2^32`.  Buffers (`[]byte`) are
`List Nat`.  Timestamps (`int64` unix milli) are `Int`.
-/

set_option maxRecDepth 100000

namespace Nrfcomm

/-! ## Constants (protocol/constants.go, current Frame layout) -/

def LengthFieldSize : Nat := 1
def SequenceFieldSize : Nat := 4
def CRCSize : Nat := 4
def TerminalSize : Nat := 1
/-- Header: Length(1) + SenderID(4) + Type(1) + Seq(4) = 10 bytes. -/
def FrameHeaderSize : Nat := LengthFieldSize + 4 + 1 + SequenceFieldSize
/-- Total maximum frame length on air. -/
def MaxFrameSize : Nat := 128
/-- 128 - 10 - 4 - 1 = 113. -/
def MaxPayloadSize : Nat := MaxFrameSize - FrameHeaderSize - CRCSize - TerminalSize
def FrameTypePairing : Nat := 0x01
def FrameTypeData : Nat := 0x02
def FrameTypeHeartbeat : Nat := 0x03
def FrameTypeAck : Nat := 0x04
def HeartbeatInterval : Nat := 5000
def PairingTimeout : Nat := 30000
def DeviceTimeout : Int := 15000
/-- Bytes in the header after the length byte: 9. -/
def headerWithoutLen : Nat := FrameHeaderSize - LengthFieldSize
def FrameTerminal : Nat := 0x55

/-! ## CRC-32 (hash/crc32 ChecksumIEEE: reflected, poly 0xEDB88320,
initial value 0xFFFFFFFF, final complement) -/

/-- One bit round: if the LSB is set, shift right and xor the polynomial,
else just shift right. -/
def crcBit (c : Nat) : Nat :=
  if c % 2 = 1 then (c / 2) ^^^ 0xEDB88320 else c / 2

/-- Process one byte: xor it in, then 8 bit rounds. -/
def crcByte (c b : Nat) : Nat :=
  crcBit (crcBit (crcBit (crcBit (crcBit (crcBit (crcBit (crcBit (c ^^^ b))))))))

/-- `crc32.ChecksumIEEE` over a byte list. -/
def crc32 (data : List Nat) : Nat :=
  (data.foldl crcByte 0xFFFFFFFF) ^^^ 0xFFFFFFFF

/-! ## Little-endian 32-bit helpers (encoding/binary LittleEndian) -/

/-- `PutUint32`: the four little-endian bytes of `n` (low 32 bits). -/
def le32 (n : Nat) : List Nat :=
  [n % 256, n / 2 ^ 8 % 256, n / 2 ^ 16 % 256, n / 2 ^ 24 % 256]

/-- `Uint32` at offset `i`: assemble four bytes little-endian.  On byte
values (`< 256`, as all Go `[]byte` entries are) this sum coincides with
Go's `b0 | b1<<8 | b2<<16 | b3<<24`. -/
def le32At (l : List Nat) (i : Nat) : Nat :=
  l.getD i 0 + l.getD (i + 1) 0 * 2 ^ 8 + l.getD (i + 2) 0 * 2 ^ 16
    + l.getD (i + 3) 0 * 2 ^ 24

/-- Go slice `l[a:b]`. -/
def slice (l : List Nat) (a b : Nat) : List Nat := (l.drop a).take (b - a)

/-! ## Frame (protocol/device.go) -/

/-- In-memory frame.  `crc` is filled by the decoder and ignored by the
encoder. -/
structure Frame where
  length : Nat
  senderID : Nat
  type : Nat
  seq : Nat
  payload : List Nat
  crc : Nat
deriving Repr, DecidableEq

/-- `EncodeFrame`.  Returns the wire bytes together with the frame value as
it stands after the call: the Go function mutates its argument, truncating
`Payload` to `MaxPayloadSize` and storing the body length into `Length`.
(The Go `p == nil` guard has no counterpart for a structure value.) -/
def encodeFrame (f : Frame) : List Nat × Frame :=
  let payload0 := if MaxPayloadSize < f.payload.length
                  then f.payload.take MaxPayloadSize else f.payload
  let bodyLen0 := headerWithoutLen + payload0.length + CRCSize + TerminalSize
  let bodyLen := if MaxFrameSize - LengthFieldSize < bodyLen0
                 then MaxFrameSize - LengthFieldSize else bodyLen0
  -- the clamp branch recomputes payloadLen; it is unreachable because the
  -- truncation above already bounds bodyLen0 by 127
  let payloadLen := if MaxFrameSize - LengthFieldSize < bodyLen0 ∧
                       headerWithoutLen + CRCSize + TerminalSize ≤ bodyLen
                    then bodyLen - headerWithoutLen - CRCSize - TerminalSize
                    else payload0.length
  let pl := payload0.take payloadLen
  let crc := if 0 < payloadLen then crc32 pl else 0
  let data := bodyLen % 256 ::
    (le32 f.senderID ++ f.type :: le32 f.seq ++ pl ++ le32 crc ++ [FrameTerminal])
  (data, { f with length := bodyLen % 256, payload := payload0 })

/-- `DecodeFrame`.  `payloadLen` is computed in `Int` exactly as the Go
`int` arithmetic does, so that the `payloadLen < 0` rejection is faithful. -/
def decodeFrame (data : List Nat) : Option Frame :=
  if data.length < FrameHeaderSize + CRCSize + TerminalSize then none
  else
    let bodyLen := data.getD 0 0
    if bodyLen = 0 ∨ data.length < bodyLen + LengthFieldSize then none
    else if data.getD (LengthFieldSize + bodyLen - 1) 0 ≠ FrameTerminal then none
    else
      let payloadLenI : Int :=
        (bodyLen : Int) - (headerWithoutLen : Int) - ((CRCSize : Int) + (TerminalSize : Int))
      if payloadLenI < 0 ∨ (MaxPayloadSize : Int) < payloadLenI then none
      else
        let payloadLen := payloadLenI.toNat
        let crcOffset := FrameHeaderSize + payloadLen
        if data.length < crcOffset + CRCSize then none
        else
          let recvCRC := le32At data crcOffset
          let calcCRC := crc32 (slice data FrameHeaderSize crcOffset)
          if recvCRC ≠ calcCRC then none
          else some
            { length := bodyLen
              senderID := le32At data 1
              type := data.getD 5 0
              seq := le32At data 6
              payload := slice data FrameHeaderSize (FrameHeaderSize + payloadLen)
              crc := recvCRC }

/-! ## Transmitter (transport/transmitter.go)

The `RadioDriver` is modelled as in the repository's own `MockDriver`:
`Tx` always succeeds and is recorded in a log; `Rx` results are supplied
as explicit poll schedules (`none` = the 100/20 ms receive timeout expired). -/

inductive TxErr where
  | notPaired
  | invalidPayload
  | timeout
  | invalidChannel
deriving Repr, DecidableEq

structure Transmitter where
  deviceID : Nat      -- device.ID
  isPaired : Bool     -- device.IsPaired
  seq : Nat           -- uint32 sequence counter
  pairingKey : Nat
  receiver : Nat
deriving Repr, DecidableEq

/-- `Transmitter.SendFrame`.  Returns the call result, the transmitter state
after the call and the list of buffers handed to `driver.Tx`. -/
def sendFrame (t : Transmitter) (frameType : Nat) (payload : List Nat) :
    Except TxErr Unit × Transmitter × List (List Nat) :=
  if t.isPaired = false ∧ frameType ≠ FrameTypePairing then
    (Except.error TxErr.notPaired, t, [])
  else if MaxPayloadSize < payload.length then
    (Except.error TxErr.invalidPayload, t, [])
  else
    let seq := t.seq
    let t1 := { t with seq := (t.seq + 1) % 2 ^ 32 }
    let frame : Frame := { length := 0, senderID := t.deviceID, type := frameType,
                           seq := seq, payload := payload, crc := 0 }
    (Except.ok (), t1, [(encodeFrame frame).1])

/-- One `ReceiveFrame` poll inside `SendDataReliable`: the received bytes
must decode and carry an Ack with the matching sequence.  (A decoded frame
always has a non-nil payload, so the Go `frame.Payload == nil` skip never
fires on decoded frames.) -/
def isMatchingAck (seq : Nat) (o : Option (List Nat)) : Bool :=
  match o with
  | none => false
  | some bytes =>
      match decodeFrame bytes with
      | none => false
      | some f => f.type == FrameTypeAck && f.seq == seq

/-- Whether some poll inside one 200 ms Ack window produced a matching Ack. -/
def windowHasAck (seq : Nat) (polls : List (Option (List Nat))) : Bool :=
  polls.any (isMatchingAck seq)

/-- Driver interactions of `SendDataReliable`: transmissions and the
inter-attempt backoff sleeps. -/
inductive TxEvent where
  | tx (bytes : List Nat)
  | backoff (ms : Nat)
deriving Repr, DecidableEq

/-- The retry loop of `SendDataReliable`: one transmission per attempt, a
success return on the first window containing a matching Ack, a
`20 + attempt*10` ms backoff between attempts, `Timeout` after the last
attempt.  `schedule i` lists the Rx results seen during attempt `i`'s
200 ms window. -/
def reliableAttempts (seq : Nat) (encoded : List Nat)
    (schedule : Nat → List (Option (List Nat))) :
    Nat → Nat → Except TxErr Unit × List TxEvent
  | _, 0 => (Except.error TxErr.timeout, [])
  | attempt, remaining + 1 =>
      if windowHasAck seq (schedule attempt) then
        (Except.ok (), [TxEvent.tx encoded])
      else if remaining = 0 then
        (Except.error TxErr.timeout, [TxEvent.tx encoded])
      else
        let r := reliableAttempts seq encoded schedule (attempt + 1) remaining
        (r.1, TxEvent.tx encoded :: TxEvent.backoff (20 + attempt * 10) :: r.2)

/-- `Transmitter.SendDataReliable`. -/
def sendDataReliable (t : Transmitter) (data : List Nat) (maxRetries : Nat)
    (schedule : Nat → List (Option (List Nat))) :
    Except TxErr Unit × Transmitter × List TxEvent :=
  if t.isPaired = false then
    (Except.error TxErr.notPaired, t, [])
  else if MaxPayloadSize < data.length then
    (Except.error TxErr.invalidPayload, t, [])
  else
    let seq := t.seq
    let t1 := { t with seq := (t.seq + 1) % 2 ^ 32 }
    let frame : Frame := { length := 0, senderID := t.deviceID,
                           type := FrameTypeData, seq := seq, payload := data,
                           crc := 0 }
    let encoded := (encodeFrame frame).1
    if encoded.length < FrameHeaderSize then
      (Except.error TxErr.invalidPayload, t1, [])
    else
      let r := reliableAttempts seq encoded schedule 0 maxRetries
      (r.1, t1, r.2)

/-- Acceptance test of the `StartPairing` wait loop: an Ack frame whose
sequence matches the pairing frame's and whose payload starts with the
little-endian expected receiver identity. -/
def acceptsPairingAck (seq receiverID : Nat) (o : Option (List Nat)) : Bool :=
  match o with
  | none => false
  | some bytes =>
      match decodeFrame bytes with
      | none => false
      | some f =>
          f.type == FrameTypeAck && f.seq == seq &&
            decide (4 ≤ f.payload.length) && le32At f.payload 0 == receiverID

/-- The polling loop of `StartPairing`; the 30000 ms deadline is modelled by
the finite list of polls that fit into it. -/
def pairingPoll (t1 : Transmitter) (seq receiverID : Nat) :
    List (Option (List Nat)) → Except TxErr Unit × Transmitter
  | [] => (Except.error TxErr.timeout, t1)
  | o :: rest =>
      if acceptsPairingAck seq receiverID o then
        (Except.ok (), { t1 with isPaired := true })
      else pairingPoll t1 seq receiverID rest

/-- `Transmitter.StartPairing`. -/
def startPairing (t : Transmitter) (receiverID : Nat)
    (polls : List (Option (List Nat))) :
    Except TxErr Unit × Transmitter × List (List Nat) :=
  let buf := le32 t.pairingKey ++ le32 receiverID
  let t0 := { t with receiver := receiverID }
  let seq := t0.seq
  match sendFrame t0 FrameTypePairing buf with
  | (Except.error e, t1, txs) => (Except.error e, t1, txs)
  | (Except.ok _, t1, txs) =>
      let r := pairingPoll t1 seq receiverID polls
      (r.1, r.2, txs)

/-! ## Legacy Packet codec (protocol/packet.go with its constants)

`transport/receiver.go` still operates on this legacy 64-byte layout
(Length | SenderID(4) | Type | Reserved(2) | Payload), not on the
CRC-protected Frame layout used by the transmitter. -/

def MaxPacketSize : Nat := 64
def PacketHeaderSize : Nat := 8
/-- Legacy payload allowance: 64 - 8 = 56 (the legacy constants file's
`MaxPayloadSize`, renamed here to avoid clashing with the Frame one). -/
def packetMaxPayloadSize : Nat := MaxPacketSize - PacketHeaderSize
/-- Legacy header bytes after the length byte: 7. -/
def packetHeaderWithoutLen : Nat := PacketHeaderSize - 1
def PacketTypePairing : Nat := 0x01
def PacketTypeData : Nat := 0x02
def PacketTypeHeartbeat : Nat := 0x03
def PacketTypeAck : Nat := 0x04

structure Packet where
  length : Nat
  senderID : Nat
  type : Nat
  reserved0 : Nat
  reserved1 : Nat
  payload : List Nat
deriving Repr, DecidableEq

/-- `EncodePacket`.  The Go code zero-fills a `totalLen` buffer and copies
`min(usable, len(payload))` payload bytes; since `usable ≤ len(payload)`
always holds, that is exactly `payload.take usable`. -/
def encodePacket (p : Packet) : List Nat :=
  let bodyLen := min (packetHeaderWithoutLen + p.payload.length)
    (packetMaxPayloadSize - 1)
  let totalLen := min (bodyLen + 1) MaxPacketSize
  let usable := totalLen - PacketHeaderSize
  (bodyLen % 256) :: le32 p.senderID ++ p.type :: p.reserved0 :: p.reserved1 ::
    p.payload.take usable

/-- `DecodePacket`.  The Go `payloadLen := bodyLen - headerWithoutLen` is a
signed int; `payloadLen > 0` is `packetHeaderWithoutLen < bodyLen` here. -/
def decodePacket (data : List Nat) : Option Packet :=
  if data.length < PacketHeaderSize then none
  else
    let bodyLen := data.getD 0 0
    if bodyLen = 0 ∨ packetMaxPayloadSize - 1 < bodyLen then none
    else if data.length < bodyLen + 1 then none
    else if data.length < 8 then none
    else
      let payload :=
        if packetHeaderWithoutLen < bodyLen then
          (if PacketHeaderSize + (bodyLen - packetHeaderWithoutLen) ≤ data.length
           then slice data PacketHeaderSize
             (PacketHeaderSize + (bodyLen - packetHeaderWithoutLen))
           else [])
        else []
      some { length := bodyLen, senderID := le32At data 1, type := data.getD 5 0,
             reserved0 := data.getD 6 0, reserved1 := data.getD 7 0,
             payload := payload }

/-! ## Receiver (transport/receiver.go)

The registry (`pairedDevices`, a Go map) is an association list with unique
keys; a `Device` keeps the fields the transport layer touches (the static
RF-addressing fields play no role in any claim and are omitted). -/

structure RDevice where
  id : Nat
  pairingKey : Nat
  isPaired : Bool
  lastSeen : Int  -- unix milli
deriving Repr, DecidableEq

def lookupDevice (reg : List (Nat × RDevice)) (id : Nat) : Option RDevice :=
  (reg.find? (fun e => e.1 == id)).map Prod.snd

/-- Go map assignment `reg[id] = d`. -/
def upsertDevice (reg : List (Nat × RDevice)) (id : Nat) (d : RDevice) :
    List (Nat × RDevice) :=
  if (reg.find? (fun e => e.1 == id)).isSome then
    reg.map (fun e => if e.1 == id then (id, d) else e)
  else reg ++ [(id, d)]

structure Receiver where
  deviceID : Nat
  pairedDevices : List (Nat × RDevice)
deriving Repr, DecidableEq

/-- `Receiver.SendAck`: a legacy Packet whose payload is the receiver's own
identity in little-endian.  (Its 12 encoded bytes pass the
`len(data) >= PacketHeaderSize` check, so it is always transmitted.) -/
def sendAckBytes (r : Receiver) : List Nat :=
  encodePacket { length := 0, senderID := r.deviceID, type := PacketTypeAck,
                 reserved0 := 0, reserved1 := 0, payload := le32 r.deviceID }

/-- `Receiver.ProcessPacket` at wall-clock `now`: returns the receiver state
after the call together with the buffers handed to `driver.Tx` (the Data
branch's Ack goroutine is modelled synchronously; the registered Data
callback only ever receives a defensive copy and cannot affect the
registry, so callback invocation is not tracked).  A decoded packet's
payload is never nil in Go, so `pkt.Payload != nil` holds there. -/
def processPacket (r : Receiver) (now : Int) (pkt : Packet) :
    Receiver × List (List Nat) :=
  let dev := lookupDevice r.pairedDevices pkt.senderID
  if pkt.type = PacketTypePairing then
    (if 8 ≤ pkt.payload.length then
      let key := le32At pkt.payload 0
      let targetID := le32At pkt.payload 4
      if targetID = r.deviceID then
        let d0 := match dev with
          | some d => d
          | none => { id := pkt.senderID, pairingKey := 0, isPaired := false,
                      lastSeen := now }
        let d1 := { d0 with pairingKey := key, isPaired := true, lastSeen := now }
        ({ r with pairedDevices := upsertDevice r.pairedDevices pkt.senderID d1 },
         [sendAckBytes r])
      else (r, [])
    else (r, []))
  else if pkt.type = PacketTypeHeartbeat then
    (match dev with
     | some d =>
         ({ r with pairedDevices :=
             upsertDevice r.pairedDevices pkt.senderID { d with lastSeen := now } }, [])
     | none => (r, []))
  else if pkt.type = PacketTypeData then
    (match dev with
     | some d =>
         let reg1 := upsertDevice r.pairedDevices pkt.senderID { d with lastSeen := now }
         let r1 := { r with pairedDevices := reg1 }
         let ack := encodePacket { length := 0, senderID := r.deviceID,
                                   type := PacketTypeAck, reserved0 := 0,
                                   reserved1 := 0,
                                   payload := [pkt.reserved0, pkt.reserved1] }
         (r1, if PacketHeaderSize ≤ ack.length then [ack] else [])
     | none => (r, []))
  else (r, [])

/-- `Receiver.CleanupDeadDevices` at wall-clock `now`: the retained registry
together with the evicted devices, each with `IsPaired` already set to
`false` (the Go code invalidates the device before deleting it). -/
def cleanupDeadDevices (r : Receiver) (now : Int) :
    Receiver × List RDevice :=
  ({ r with pairedDevices :=
      r.pairedDevices.filter (fun e => decide (now - e.2.lastSeen ≤ DeviceTimeout)) },
   (r.pairedDevices.filter (fun e => decide (DeviceTimeout < now - e.2.lastSeen))).map
     (fun e => { e.2 with isPaired := false }))

/-! ## Helper lemmas -/

lemma getD_append_len (l1 l2 : List Nat) (i d : Nat) :
    (l1 ++ l2).getD (l1.length + i) d = l2.getD i d := by
  induction l1 with
  | nil => simp
  | cons a l ih =>
      have h : (a :: l).length + i = (l.length + i) + 1 := by
        simp [List.length_cons]; omega
      rw [List.cons_append, h, List.getD_cons_succ, ih]

lemma crc32_nil : crc32 [] = 0 := rfl

lemma crcBit_lt {c : Nat} (h : c < 2 ^ 32) : crcBit c < 2 ^ 32 := by
  unfold crcBit
  split
  · exact Nat.xor_lt_two_pow (by omega) (by norm_num)
  · omega

lemma crcByte_lt {c b : Nat} (hc : c < 2 ^ 32) (hb : b < 256) :
    crcByte c b < 2 ^ 32 := by
  unfold crcByte
  have h0 : c ^^^ b < 2 ^ 32 := Nat.xor_lt_two_pow hc (by omega)
  exact crcBit_lt (crcBit_lt (crcBit_lt (crcBit_lt (crcBit_lt (crcBit_lt
    (crcBit_lt (crcBit_lt h0)))))))

lemma crc32_lt {l : List Nat} (h : ∀ b ∈ l, b < 256) : crc32 l < 2 ^ 32 := by
  unfold crc32
  have key : ∀ (xs : List Nat), (∀ b ∈ xs, b < 256) → ∀ (a : Nat), a < 2 ^ 32 →
      xs.foldl crcByte a < 2 ^ 32 := by
    intro xs
    induction xs with
    | nil => intro _ a ha; simpa using ha
    | cons x l ih =>
        intro hx a ha
        simp only [List.foldl_cons]
        exact ih (fun b hb => hx b (List.mem_cons_of_mem _ hb))
          _ (crcByte_lt ha (hx x (List.mem_cons_self _ _)))
  exact Nat.xor_lt_two_pow (key l h _ (by norm_num)) (by norm_num)

lemma le32_assemble (n : Nat) :
    n % 256 + n / 2 ^ 8 % 256 * 2 ^ 8 + n / 2 ^ 16 % 256 * 2 ^ 16
      + n / 2 ^ 24 % 256 * 2 ^ 24 = n % 2 ^ 32 := by
  omega

/-- Evaluation of `decodeFrame` on a structurally well-formed wire image
with arbitrary bytes `c0..c3` in the CRC field: the result is `some` exactly
when the CRC field assembles to the CRC of the payload. -/
lemma decodeFrame_wire_eval (s0 s1 s2 s3 ty q0 q1 q2 q3 : Nat) (pl : List Nat)
    (c0 c1 c2 c3 : Nat) (hn : pl.length ≤ 113) :
    decodeFrame ((14 + pl.length) :: s0 :: s1 :: s2 :: s3 :: ty :: q0 :: q1 :: q2 :: q3 ::
        (pl ++ [c0, c1, c2, c3, FrameTerminal]))
      = (if c0 + c1 * 2 ^ 8 + c2 * 2 ^ 16 + c3 * 2 ^ 24 = crc32 pl then
          some { length := 14 + pl.length,
                 senderID := s0 + s1 * 2 ^ 8 + s2 * 2 ^ 16 + s3 * 2 ^ 24,
                 type := ty,
                 seq := q0 + q1 * 2 ^ 8 + q2 * 2 ^ 16 + q3 * 2 ^ 24,
                 payload := pl,
                 crc := c0 + c1 * 2 ^ 8 + c2 * 2 ^ 16 + c3 * 2 ^ 24 }
        else none) := by
  set n := pl.length with hnd
  set tail := pl ++ [c0, c1, c2, c3, FrameTerminal] with htail
  set data := (14 + n) :: s0 :: s1 :: s2 :: s3 :: ty :: q0 :: q1 :: q2 :: q3 :: tail
    with hdata
  have hsplit : data = [14 + n, s0, s1, s2, s3, ty, q0, q1, q2, q3] ++ tail := by
    simp [hdata]
  have htlen : tail.length = n + 5 := by simp [htail]
  have hlen : data.length = n + 15 := by
    rw [hsplit, List.length_append, htlen]; simp; omega
  have hgetD_tail : ∀ i d : Nat, data.getD (10 + i) d = tail.getD i d := by
    intro i d
    have h10 : ([14 + n, s0, s1, s2, s3, ty, q0, q1, q2, q3] : List Nat).length = 10 := by
      simp
    rw [hsplit, ← h10, getD_append_len]
  have hgetD_crc : ∀ i d : Nat, tail.getD (n + i) d = [c0, c1, c2, c3, FrameTerminal].getD i d := by
    intro i d
    rw [htail, hnd, getD_append_len]
  have hterm : data.getD (LengthFieldSize + (14 + n) - 1) 0 = FrameTerminal := by
    have h1 : LengthFieldSize + (14 + n) - 1 = 10 + (n + 4) := by
      simp [LengthFieldSize]; omega
    rw [h1, hgetD_tail, hgetD_crc]; rfl
  have hdrop : data.drop 10 = tail := rfl
  have hpayload : slice data FrameHeaderSize (FrameHeaderSize + n) = pl := by
    have h1 : FrameHeaderSize = 10 := rfl
    simp only [slice, h1, Nat.add_sub_cancel_left, hdrop, htail, hnd]
    exact List.take_left pl _
  have g0 : data.getD (10 + n) 0 = c0 := by
    rw [show 10 + n = 10 + (n + 0) by omega, hgetD_tail, hgetD_crc]; rfl
  have g1 : data.getD (10 + n + 1) 0 = c1 := by
    rw [show 10 + n + 1 = 10 + (n + 1) by omega, hgetD_tail, hgetD_crc]; rfl
  have g2 : data.getD (10 + n + 2) 0 = c2 := by
    rw [show 10 + n + 2 = 10 + (n + 2) by omega, hgetD_tail, hgetD_crc]; rfl
  have g3 : data.getD (10 + n + 3) 0 = c3 := by
    rw [show 10 + n + 3 = 10 + (n + 3) by omega, hgetD_tail, hgetD_crc]; rfl
  have hrecv : le32At data (FrameHeaderSize + n)
      = c0 + c1 * 2 ^ 8 + c2 * 2 ^ 16 + c3 * 2 ^ 24 := by
    have h1 : FrameHeaderSize = 10 := rfl
    simp only [le32At, h1]
    rw [g0, g1, g2, g3]
  -- now walk the decoder
  rw [decodeFrame]
  rw [if_neg (by
        rw [hlen]
        simp only [FrameHeaderSize, CRCSize, TerminalSize,
          LengthFieldSize, SequenceFieldSize]
        omega)]
  have hgd0 : data.getD 0 0 = 14 + n := rfl
  rw [hgd0]
  rw [if_neg (by
        rw [hlen]
        simp [LengthFieldSize]
        omega)]
  rw [if_neg (by rw [hterm]; simp)]
  have hplI : ((14 + n : Nat) : Int) - (headerWithoutLen : Int)
      - ((CRCSize : Int) + (TerminalSize : Int)) = (n : Int) := by
    simp [headerWithoutLen, CRCSize, TerminalSize, FrameHeaderSize,
      LengthFieldSize, SequenceFieldSize]
    omega
  rw [hplI]
  rw [if_neg (by
        rw [not_or]
        refine ⟨by omega, ?_⟩
        simp only [MaxPayloadSize, MaxFrameSize, FrameHeaderSize, CRCSize,
          TerminalSize, LengthFieldSize, SequenceFieldSize]
        omega)]
  simp only [Int.toNat_natCast]
  rw [if_neg (by
        rw [hlen]
        simp only [FrameHeaderSize, CRCSize, LengthFieldSize, SequenceFieldSize]
        omega)]
  rw [hrecv, hpayload]
  by_cases hC : c0 + c1 * 2 ^ 8 + c2 * 2 ^ 16 + c3 * 2 ^ 24 = crc32 pl
  · rw [if_neg (not_not_intro hC), if_pos hC]
    rfl
  · rw [if_pos hC, if_neg hC]

/-- For payloads within `MaxPayloadSize`, the encoder output written out
byte by byte. -/
lemma encodeFrame_wire (f : Frame) (hpl : f.payload.length ≤ MaxPayloadSize) :
    (encodeFrame f).1 =
      (14 + f.payload.length) :: (f.senderID % 256) :: (f.senderID / 2 ^ 8 % 256) ::
        (f.senderID / 2 ^ 16 % 256) :: (f.senderID / 2 ^ 24 % 256) :: f.type ::
        (f.seq % 256) :: (f.seq / 2 ^ 8 % 256) :: (f.seq / 2 ^ 16 % 256) ::
        (f.seq / 2 ^ 24 % 256) ::
        (f.payload ++ [crc32 f.payload % 256, crc32 f.payload / 2 ^ 8 % 256,
          crc32 f.payload / 2 ^ 16 % 256, crc32 f.payload / 2 ^ 24 % 256,
          FrameTerminal]) := by
  have hpl113 : f.payload.length ≤ 113 := by
    simpa [MaxPayloadSize, MaxFrameSize, FrameHeaderSize, CRCSize, TerminalSize,
      LengthFieldSize, SequenceFieldSize] using hpl
  simp only [encodeFrame]
  have h1 : ¬ (MaxPayloadSize < f.payload.length) := by
    simp only [MaxPayloadSize, MaxFrameSize, FrameHeaderSize, CRCSize,
      TerminalSize, LengthFieldSize, SequenceFieldSize]
    omega
  rw [if_neg h1]
  have h2 : ¬ (MaxFrameSize - LengthFieldSize <
      headerWithoutLen + f.payload.length + CRCSize + TerminalSize) := by
    simp only [MaxFrameSize, LengthFieldSize, headerWithoutLen, FrameHeaderSize,
      CRCSize, TerminalSize, SequenceFieldSize]
    omega
  rw [if_neg h2, if_neg (by rw [not_and_or]; left; exact h2)]
  rw [List.take_length]
  have h3 : (if 0 < f.payload.length then crc32 f.payload else 0)
      = crc32 f.payload := by
    rcases Nat.eq_zero_or_pos f.payload.length with h | h
    · rw [if_neg (by omega), List.length_eq_zero.mp h, crc32_nil]
    · rw [if_pos h]
  rw [h3]
  have h4 : headerWithoutLen + f.payload.length + CRCSize + TerminalSize =
      14 + f.payload.length := by
    simp only [headerWithoutLen, FrameHeaderSize, CRCSize, TerminalSize,
      LengthFieldSize, SequenceFieldSize]
    omega
  rw [h4, Nat.mod_eq_of_lt (by omega)]
  simp [le32]

/-- C1 in precise form: for in-range fields and a byte payload of length at
most 113, decoding the encoding succeeds and returns exactly the original
field values (with `length` and `crc` filled in by the decoder). -/
lemma decode_encode (f : Frame) (hs : f.senderID < 2 ^ 32) (hq : f.seq < 2 ^ 32)
    (hpl : f.payload.length ≤ MaxPayloadSize) (hb : ∀ x ∈ f.payload, x < 256) :
    decodeFrame (encodeFrame f).1 =
      some { length := 14 + f.payload.length, senderID := f.senderID,
             type := f.type, seq := f.seq, payload := f.payload,
             crc := crc32 f.payload } := by
  have hpl113 : f.payload.length ≤ 113 := by
    simpa [MaxPayloadSize, MaxFrameSize, FrameHeaderSize, CRCSize, TerminalSize,
      LengthFieldSize, SequenceFieldSize] using hpl
  rw [encodeFrame_wire f hpl]
  rw [decodeFrame_wire_eval _ _ _ _ _ _ _ _ _ _ _ _ _ _ hpl113]
  have hcrc : crc32 f.payload % 256 + crc32 f.payload / 2 ^ 8 % 256 * 2 ^ 8 +
      crc32 f.payload / 2 ^ 16 % 256 * 2 ^ 16 +
      crc32 f.payload / 2 ^ 24 % 256 * 2 ^ 24 = crc32 f.payload := by
    rw [le32_assemble]; exact Nat.mod_eq_of_lt (crc32_lt hb)
  rw [if_pos hcrc, hcrc]
  have e1 : f.senderID % 256 + f.senderID / 2 ^ 8 % 256 * 2 ^ 8 +
      f.senderID / 2 ^ 16 % 256 * 2 ^ 16 + f.senderID / 2 ^ 24 % 256 * 2 ^ 24
        = f.senderID := by
    rw [le32_assemble]; exact Nat.mod_eq_of_lt hs
  have e2 : f.seq % 256 + f.seq / 2 ^ 8 % 256 * 2 ^ 8 +
      f.seq / 2 ^ 16 % 256 * 2 ^ 16 + f.seq / 2 ^ 24 % 256 * 2 ^ 24 = f.seq := by
    rw [le32_assemble]; exact Nat.mod_eq_of_lt hq
  rw [e1, e2]

/-! ### Decoder failure paths -/

lemma decode_none_of_short {data : List Nat} (h : data.length < 15) :
    decodeFrame data = none := by
  simp only [decodeFrame]
  rw [if_pos (by
    simp only [FrameHeaderSize, CRCSize, TerminalSize, LengthFieldSize,
      SequenceFieldSize]
    omega)]

lemma decode_none_of_badlen {data : List Nat}
    (h : data.getD 0 0 = 0 ∨ data.length < data.getD 0 0 + 1) :
    decodeFrame data = none := by
  simp only [decodeFrame]
  by_cases h1 : data.length < FrameHeaderSize + CRCSize + TerminalSize
  · rw [if_pos h1]
  · rw [if_neg h1]
    rw [if_pos (by
      rcases h with h | h
      · exact Or.inl h
      · exact Or.inr (by simp only [LengthFieldSize]; omega))]

lemma decode_none_of_badterm {data : List Nat}
    (h : data.getD (data.getD 0 0) 0 ≠ FrameTerminal) :
    decodeFrame data = none := by
  simp only [decodeFrame]
  by_cases h1 : data.length < FrameHeaderSize + CRCSize + TerminalSize
  · rw [if_pos h1]
  · rw [if_neg h1]
    by_cases h2 : data.getD 0 0 = 0 ∨ data.length < data.getD 0 0 + LengthFieldSize
    · rw [if_pos h2]
    · rw [if_neg h2]
      rw [if_pos (by
        have e : LengthFieldSize + data.getD 0 0 - 1 = data.getD 0 0 := by
          simp only [LengthFieldSize]; omega
        rw [e]; exact h)]

lemma decode_none_of_badcrc {data : List Nat}
    (h : le32At data (FrameHeaderSize + (data.getD 0 0 - 14)) ≠
      crc32 (slice data FrameHeaderSize (FrameHeaderSize + (data.getD 0 0 - 14)))) :
    decodeFrame data = none := by
  simp only [decodeFrame]
  by_cases h1 : data.length < FrameHeaderSize + CRCSize + TerminalSize
  · rw [if_pos h1]
  · rw [if_neg h1]
    by_cases h2 : data.getD 0 0 = 0 ∨ data.length < data.getD 0 0 + LengthFieldSize
    · rw [if_pos h2]
    · rw [if_neg h2]
      by_cases h3 : data.getD (LengthFieldSize + data.getD 0 0 - 1) 0 ≠ FrameTerminal
      · rw [if_pos h3]
      · rw [if_neg h3]
        by_cases h4 : ((data.getD 0 0 : Int) - (headerWithoutLen : Int)
            - ((CRCSize : Int) + (TerminalSize : Int)) < 0) ∨
            ((MaxPayloadSize : Int) <
              (data.getD 0 0 : Int) - (headerWithoutLen : Int)
                - ((CRCSize : Int) + (TerminalSize : Int)))
        · rw [if_pos h4]
        · rw [if_neg h4]
          have e : ((data.getD 0 0 : Int) - (headerWithoutLen : Int)
              - ((CRCSize : Int) + (TerminalSize : Int))).toNat
                = data.getD 0 0 - 14 := by
            simp only [headerWithoutLen, FrameHeaderSize, CRCSize, TerminalSize,
              LengthFieldSize, SequenceFieldSize]
            omega
          rw [e]
          by_cases h5 : data.length < FrameHeaderSize + (data.getD 0 0 - 14) + CRCSize
          · rw [if_pos h5]
          · rw [if_neg h5]
            rw [if_pos h]

/-! ### Surgical byte replacement -/

lemma set_append_len (l1 l2 : List Nat) (i v : Nat) :
    (l1 ++ l2).set (l1.length + i) v = l1 ++ l2.set i v := by
  induction l1 with
  | nil => simp
  | cons a l ih =>
      have h : (a :: l).length + i = (l.length + i) + 1 := by
        simp [List.length_cons]; omega
      rw [List.cons_append, h, List.set_cons_succ, ih, List.cons_append]

lemma xor_ne_self {a b : Nat} (hb : b ≠ 0) : a ^^^ b ≠ a := by
  intro h
  apply hb
  calc b = a ^^^ (a ^^^ b) := by rw [← Nat.xor_assoc, Nat.xor_self, Nat.zero_xor]
    _ = a ^^^ a := by rw [h]
    _ = 0 := Nat.xor_self a

/-- The byte of the encoded buffer at position `crcPos + i` (`i < 4`) is the
`i`-th little-endian byte of the payload CRC. -/
lemma encode_crc_byte (f : Frame) (hpl : f.payload.length ≤ MaxPayloadSize)
    (i : Nat) (hi : i < 4) :
    (encodeFrame f).1.getD (FrameHeaderSize + f.payload.length + i) 0
      = crc32 f.payload / 2 ^ (8 * i) % 256 := by
  rw [encodeFrame_wire f hpl]
  set n := f.payload.length with hn
  set c := crc32 f.payload with hc
  have hsplit : (14 + n) :: (f.senderID % 256) :: (f.senderID / 2 ^ 8 % 256) ::
      (f.senderID / 2 ^ 16 % 256) :: (f.senderID / 2 ^ 24 % 256) :: f.type ::
      (f.seq % 256) :: (f.seq / 2 ^ 8 % 256) :: (f.seq / 2 ^ 16 % 256) ::
      (f.seq / 2 ^ 24 % 256) ::
      (f.payload ++ [c % 256, c / 2 ^ 8 % 256, c / 2 ^ 16 % 256, c / 2 ^ 24 % 256,
        FrameTerminal])
    = [14 + n, f.senderID % 256, f.senderID / 2 ^ 8 % 256, f.senderID / 2 ^ 16 % 256,
       f.senderID / 2 ^ 24 % 256, f.type, f.seq % 256, f.seq / 2 ^ 8 % 256,
       f.seq / 2 ^ 16 % 256, f.seq / 2 ^ 24 % 256] ++
      (f.payload ++ [c % 256, c / 2 ^ 8 % 256, c / 2 ^ 16 % 256, c / 2 ^ 24 % 256,
        FrameTerminal]) := rfl
  rw [hsplit]
  have e : FrameHeaderSize + n + i = ([14 + n, f.senderID % 256,
      f.senderID / 2 ^ 8 % 256, f.senderID / 2 ^ 16 % 256, f.senderID / 2 ^ 24 % 256,
      f.type, f.seq % 256, f.seq / 2 ^ 8 % 256, f.seq / 2 ^ 16 % 256,
      f.seq / 2 ^ 24 % 256] : List Nat).length + (n + i) := by
    simp [FrameHeaderSize, LengthFieldSize, SequenceFieldSize]
    omega
  rw [e, getD_append_len, hn, getD_append_len]
  interval_cases i <;> norm_num

/-- Replacing the byte at position `crcPos + i` of a valid encoding by any
byte value other than the original CRC byte makes decoding fail. -/
lemma decode_set_crc_none (f : Frame) (hpl : f.payload.length ≤ MaxPayloadSize)
    (hb : ∀ x ∈ f.payload, x < 256) (i w : Nat) (hi : i < 4) (hw : w < 256)
    (hne : w ≠ crc32 f.payload / 2 ^ (8 * i) % 256) :
    decodeFrame ((encodeFrame f).1.set (FrameHeaderSize + f.payload.length + i) w)
      = none := by
  have hpl113 : f.payload.length ≤ 113 := by
    simpa [MaxPayloadSize, MaxFrameSize, FrameHeaderSize, CRCSize, TerminalSize,
      LengthFieldSize, SequenceFieldSize] using hpl
  rw [encodeFrame_wire f hpl]
  set n := f.payload.length with hn
  set c := crc32 f.payload with hc
  have horig : c % 256 + c / 2 ^ 8 % 256 * 2 ^ 8 + c / 2 ^ 16 % 256 * 2 ^ 16
      + c / 2 ^ 24 % 256 * 2 ^ 24 = c := by
    rw [le32_assemble]
    exact Nat.mod_eq_of_lt (crc32_lt hb)
  have hsplit : ∀ tl : List Nat, (14 + n) :: (f.senderID % 256) ::
      (f.senderID / 2 ^ 8 % 256) :: (f.senderID / 2 ^ 16 % 256) ::
      (f.senderID / 2 ^ 24 % 256) :: f.type :: (f.seq % 256) ::
      (f.seq / 2 ^ 8 % 256) :: (f.seq / 2 ^ 16 % 256) :: (f.seq / 2 ^ 24 % 256) :: tl
    = [14 + n, f.senderID % 256, f.senderID / 2 ^ 8 % 256, f.senderID / 2 ^ 16 % 256,
       f.senderID / 2 ^ 24 % 256, f.type, f.seq % 256, f.seq / 2 ^ 8 % 256,
       f.seq / 2 ^ 16 % 256, f.seq / 2 ^ 24 % 256] ++ tl := fun _ => rfl
  rw [hsplit]
  have e : FrameHeaderSize + n + i = ([14 + n, f.senderID % 256,
      f.senderID / 2 ^ 8 % 256, f.senderID / 2 ^ 16 % 256, f.senderID / 2 ^ 24 % 256,
      f.type, f.seq % 256, f.seq / 2 ^ 8 % 256, f.seq / 2 ^ 16 % 256,
      f.seq / 2 ^ 24 % 256] : List Nat).length + (n + i) := by
    simp [FrameHeaderSize, LengthFieldSize, SequenceFieldSize]
    omega
  rw [e, set_append_len, hn, set_append_len, ← hsplit]
  interval_cases i
  · show decodeFrame ((14 + n) :: _ :: _ :: _ :: _ :: _ :: _ :: _ :: _ :: _ ::
      (f.payload ++ [w, c / 2 ^ 8 % 256, c / 2 ^ 16 % 256, c / 2 ^ 24 % 256,
        FrameTerminal])) = none
    rw [decodeFrame_wire_eval _ _ _ _ _ _ _ _ _ _ _ _ _ _ hpl113]
    rw [if_neg (by norm_num at hne; omega)]
  · show decodeFrame ((14 + n) :: _ :: _ :: _ :: _ :: _ :: _ :: _ :: _ :: _ ::
      (f.payload ++ [c % 256, w, c / 2 ^ 16 % 256, c / 2 ^ 24 % 256,
        FrameTerminal])) = none
    rw [decodeFrame_wire_eval _ _ _ _ _ _ _ _ _ _ _ _ _ _ hpl113]
    rw [if_neg (by norm_num at hne; omega)]
  · show decodeFrame ((14 + n) :: _ :: _ :: _ :: _ :: _ :: _ :: _ :: _ :: _ ::
      (f.payload ++ [c % 256, c / 2 ^ 8 % 256, w, c / 2 ^ 24 % 256,
        FrameTerminal])) = none
    rw [decodeFrame_wire_eval _ _ _ _ _ _ _ _ _ _ _ _ _ _ hpl113]
    rw [if_neg (by norm_num at hne; omega)]
  · show decodeFrame ((14 + n) :: _ :: _ :: _ :: _ :: _ :: _ :: _ :: _ :: _ ::
      (f.payload ++ [c % 256, c / 2 ^ 8 % 256, c / 2 ^ 16 % 256, w,
        FrameTerminal])) = none
    rw [decodeFrame_wire_eval _ _ _ _ _ _ _ _ _ _ _ _ _ _ hpl113]
    rw [if_neg (by norm_num at hne; omega)]

/-- Replacing the terminator byte of a valid encoding by any other value
makes decoding fail. -/
lemma decode_set_term_none (f : Frame) (hpl : f.payload.length ≤ MaxPayloadSize)
    (v : Nat) (hv : v ≠ FrameTerminal) :
    decodeFrame ((encodeFrame f).1.set (14 + f.payload.length) v) = none := by
  rw [encodeFrame_wire f hpl]
  have hsplit : ∀ tl : List Nat, (14 + f.payload.length) :: (f.senderID % 256) ::
      (f.senderID / 2 ^ 8 % 256) :: (f.senderID / 2 ^ 16 % 256) ::
      (f.senderID / 2 ^ 24 % 256) :: f.type :: (f.seq % 256) ::
      (f.seq / 2 ^ 8 % 256) :: (f.seq / 2 ^ 16 % 256) :: (f.seq / 2 ^ 24 % 256) :: tl
    = [14 + f.payload.length, f.senderID % 256, f.senderID / 2 ^ 8 % 256,
       f.senderID / 2 ^ 16 % 256, f.senderID / 2 ^ 24 % 256, f.type, f.seq % 256,
       f.seq / 2 ^ 8 % 256, f.seq / 2 ^ 16 % 256, f.seq / 2 ^ 24 % 256] ++ tl :=
    fun _ => rfl
  rw [hsplit]
  have e : 14 + f.payload.length = ([14 + f.payload.length, f.senderID % 256,
      f.senderID / 2 ^ 8 % 256, f.senderID / 2 ^ 16 % 256, f.senderID / 2 ^ 24 % 256,
      f.type, f.seq % 256, f.seq / 2 ^ 8 % 256, f.seq / 2 ^ 16 % 256,
      f.seq / 2 ^ 24 % 256] : List Nat).length + (f.payload.length + 4) := by
    simp
    omega
  nth_rewrite 2 [e]
  rw [set_append_len, set_append_len]
  apply decode_none_of_badterm
  have g0 : (([14 + f.payload.length, f.senderID % 256, f.senderID / 2 ^ 8 % 256,
      f.senderID / 2 ^ 16 % 256, f.senderID / 2 ^ 24 % 256, f.type, f.seq % 256,
      f.seq / 2 ^ 8 % 256, f.seq / 2 ^ 16 % 256, f.seq / 2 ^ 24 % 256] ++
      (f.payload ++ ([crc32 f.payload % 256, crc32 f.payload / 2 ^ 8 % 256,
        crc32 f.payload / 2 ^ 16 % 256, crc32 f.payload / 2 ^ 24 % 256,
        FrameTerminal].set 4 v))).getD 0 0) = 14 + f.payload.length := rfl
  rw [g0]
  nth_rewrite 2 [e]
  rw [getD_append_len, getD_append_len]
  simpa using hv

/-! ### Encoder size facts -/

/-- Encoding an oversize payload is the same as encoding its 113-byte
truncation (and the mutated frame keeps the truncated payload). -/
lemma encodeFrame_oversize (f : Frame) (h : MaxPayloadSize < f.payload.length) :
    (encodeFrame f).1
      = (encodeFrame { f with payload := f.payload.take MaxPayloadSize }).1 := by
  have hlt : ¬ (MaxPayloadSize < (f.payload.take MaxPayloadSize).length) := by
    simp [List.length_take]
  simp only [encodeFrame, if_pos h, if_neg hlt]

lemma encode_facts (f : Frame) (hpl : f.payload.length ≤ MaxPayloadSize) :
    (encodeFrame f).1.length = 15 + f.payload.length ∧
    (encodeFrame f).1.getD 0 0 = 14 + f.payload.length ∧
    (encodeFrame f).1.getD (14 + f.payload.length) 0 = FrameTerminal := by
  rw [encodeFrame_wire f hpl]
  refine ⟨by simp; omega, rfl, ?_⟩
  have hsplit : ∀ tl : List Nat, (14 + f.payload.length) :: (f.senderID % 256) ::
      (f.senderID / 2 ^ 8 % 256) :: (f.senderID / 2 ^ 16 % 256) ::
      (f.senderID / 2 ^ 24 % 256) :: f.type :: (f.seq % 256) ::
      (f.seq / 2 ^ 8 % 256) :: (f.seq / 2 ^ 16 % 256) :: (f.seq / 2 ^ 24 % 256) :: tl
    = [14 + f.payload.length, f.senderID % 256, f.senderID / 2 ^ 8 % 256,
       f.senderID / 2 ^ 16 % 256, f.senderID / 2 ^ 24 % 256, f.type, f.seq % 256,
       f.seq / 2 ^ 8 % 256, f.seq / 2 ^ 16 % 256, f.seq / 2 ^ 24 % 256] ++ tl :=
    fun _ => rfl
  rw [hsplit]
  have e : 14 + f.payload.length = ([14 + f.payload.length, f.senderID % 256,
      f.senderID / 2 ^ 8 % 256, f.senderID / 2 ^ 16 % 256, f.senderID / 2 ^ 24 % 256,
      f.type, f.seq % 256, f.seq / 2 ^ 8 % 256, f.seq / 2 ^ 16 % 256,
      f.seq / 2 ^ 24 % 256] : List Nat).length + (f.payload.length + 4) := by
    simp
    omega
  nth_rewrite 2 [e]
  rw [getD_append_len, getD_append_len]
  rfl

lemma encode_length_15 (f : Frame) : 15 ≤ (encodeFrame f).1.length := by
  by_cases h : MaxPayloadSize < f.payload.length
  · rw [encodeFrame_oversize f h]
    have := (encode_facts { f with payload := f.payload.take MaxPayloadSize }
      (by simp [List.length_take])).1
    omega
  · have := (encode_facts f (by omega)).1
    omega

/-- A successfully decoded frame's payload never exceeds 113 bytes. -/
lemma decode_payload_le (data : List Nat) (g : Frame)
    (h : decodeFrame data = some g) : g.payload.length ≤ MaxPayloadSize := by
  simp only [decodeFrame] at h
  split at h
  · exact absurd h (by simp)
  split at h
  · exact absurd h (by simp)
  split at h
  · exact absurd h (by simp)
  split at h
  · exact absurd h (by simp)
  rename_i hrange
  split at h
  · exact absurd h (by simp)
  split at h
  · exact absurd h (by simp)
  rw [Option.some.injEq] at h
  subst h
  simp only [slice, Nat.add_sub_cancel_left, MaxPayloadSize, MaxFrameSize,
    FrameHeaderSize, CRCSize, TerminalSize, LengthFieldSize, SequenceFieldSize]
  have h2 : (((data.getD 0 0 : Int) - (headerWithoutLen : Int)
      - ((CRCSize : Int) + (TerminalSize : Int))).toNat) ≤ 113 := by
    rw [not_or] at hrange
    simp only [headerWithoutLen, FrameHeaderSize, CRCSize, TerminalSize,
      LengthFieldSize, SequenceFieldSize, MaxPayloadSize, MaxFrameSize]
        at hrange ⊢
    omega
  calc (List.take (((data.getD 0 0 : Int) - (headerWithoutLen : Int)
          - ((CRCSize : Int) + (TerminalSize : Int))).toNat)
        (List.drop (1 + 4 + 1 + 4) data)).length
      ≤ (((data.getD 0 0 : Int) - (headerWithoutLen : Int)
          - ((CRCSize : Int) + (TerminalSize : Int))).toNat) := by
        rw [List.length_take]; omega
    _ ≤ 128 - (1 + 4 + 1 + 4) - 4 - 1 := by omega

/-! ### Retry-loop facts -/

/-- Number of transmissions in an event log. -/
def txCount (evs : List TxEvent) : Nat :=
  (evs.filter fun e => match e with
    | TxEvent.tx _ => true
    | TxEvent.backoff _ => false).length

lemma txCount_nil : txCount [] = 0 := rfl

lemma txCount_tx (b : List Nat) (l : List TxEvent) :
    txCount (TxEvent.tx b :: l) = txCount l + 1 := by
  simp [txCount, List.filter]

lemma txCount_backoff (ms : Nat) (l : List TxEvent) :
    txCount (TxEvent.backoff ms :: l) = txCount l := by
  simp [txCount, List.filter]

lemma ra_result (seq : Nat) (enc : List Nat)
    (sch : Nat → List (Option (List Nat))) :
    ∀ (m a : Nat), (reliableAttempts seq enc sch a m).1 = Except.ok () ∨
      (reliableAttempts seq enc sch a m).1 = Except.error TxErr.timeout := by
  intro m
  induction m with
  | zero => intro a; right; rfl
  | succ m ih =>
      intro a
      simp only [reliableAttempts]
      by_cases hw : windowHasAck seq (sch a)
      · rw [if_pos hw]; left; rfl
      · rw [if_neg hw]
        by_cases hm : m = 0
        · rw [if_pos hm]; right; rfl
        · rw [if_neg hm]
          exact ih (a + 1)

lemma ra_tx_all (seq : Nat) (enc : List Nat)
    (sch : Nat → List (Option (List Nat))) :
    ∀ (m a : Nat) (b : List Nat),
      TxEvent.tx b ∈ (reliableAttempts seq enc sch a m).2 → b = enc := by
  intro m
  induction m with
  | zero => intro a b hb; simp [reliableAttempts] at hb
  | succ m ih =>
      intro a b hb
      simp only [reliableAttempts] at hb
      by_cases hw : windowHasAck seq (sch a)
      · rw [if_pos hw] at hb
        simpa using List.mem_singleton.mp hb |> fun h => (TxEvent.tx.injEq _ _).mp h
      · rw [if_neg hw] at hb
        by_cases hm : m = 0
        · rw [if_pos hm] at hb
          simpa using List.mem_singleton.mp hb |> fun h => (TxEvent.tx.injEq _ _).mp h
        · rw [if_neg hm] at hb
          rcases List.mem_cons.mp hb with h | h
          · exact ((TxEvent.tx.injEq _ _).mp h)
          · rcases List.mem_cons.mp h with h2 | h2
            · cases h2
            · exact ih (a + 1) b h2

lemma ra_never (seq : Nat) (enc : List Nat)
    (sch : Nat → List (Option (List Nat)))
    (h : ∀ i, windowHasAck seq (sch i) = false) :
    ∀ (m a : Nat), (reliableAttempts seq enc sch a m).1 =
        Except.error TxErr.timeout ∧
      txCount (reliableAttempts seq enc sch a m).2 = m := by
  intro m
  induction m with
  | zero => intro a; exact ⟨rfl, rfl⟩
  | succ m ih =>
      intro a
      simp only [reliableAttempts]
      rw [if_neg (by rw [h a]; exact Bool.false_ne_true)]
      by_cases hm : m = 0
      · rw [if_pos hm]
        subst hm
        exact ⟨rfl, rfl⟩
      · rw [if_neg hm]
        refine ⟨(ih (a + 1)).1, ?_⟩
        rw [txCount_tx, txCount_backoff, (ih (a + 1)).2]

lemma ra_first (seq : Nat) (enc : List Nat)
    (sch : Nat → List (Option (List Nat))) :
    ∀ (k m a : Nat), k < m →
      (∀ i, i < k → windowHasAck seq (sch (a + i)) = false) →
      windowHasAck seq (sch (a + k)) = true →
      (reliableAttempts seq enc sch a m).1 = Except.ok () ∧
        txCount (reliableAttempts seq enc sch a m).2 = k + 1 := by
  intro k
  induction k with
  | zero =>
      intro m a hkm _ hk
      obtain ⟨m', rfl⟩ : ∃ m', m = m' + 1 := ⟨m - 1, by omega⟩
      simp only [reliableAttempts]
      rw [if_pos (by simpa using hk)]
      exact ⟨rfl, rfl⟩
  | succ k ih =>
      intro m a hkm hlt hk
      obtain ⟨m', rfl⟩ : ∃ m', m = m' + 1 := ⟨m - 1, by omega⟩
      simp only [reliableAttempts]
      rw [if_neg (by
            have h0 := hlt 0 (by omega)
            rw [Nat.add_zero] at h0
            rw [h0]
            exact Bool.false_ne_true)]
      rw [if_neg (by omega : m' ≠ 0)]
      have harg1 : ∀ i, i < k → windowHasAck seq (sch (a + 1 + i)) = false := by
        intro i hi
        have h2 := hlt (i + 1) (by omega)
        rwa [show a + (i + 1) = a + 1 + i by omega] at h2
      have harg2 : windowHasAck seq (sch (a + 1 + k)) = true := by
        rwa [show a + 1 + k = a + (k + 1) by omega]
      have hih := ih m' (a + 1) (by omega) harg1 harg2
      refine ⟨hih.1, ?_⟩
      rw [txCount_tx, txCount_backoff, hih.2]

/-! ### Registry facts -/

lemma assoc_unique {reg : List (Nat × RDevice)}
    (h : (reg.map Prod.fst).Nodup) {id : Nat} {d d' : RDevice}
    (h1 : (id, d) ∈ reg) (h2 : (id, d') ∈ reg) : d = d' := by
  induction reg with
  | nil => cases h1
  | cons a l ih =>
      rw [List.map_cons, List.nodup_cons] at h
      rcases List.mem_cons.mp h1 with e1 | e1 <;>
        rcases List.mem_cons.mp h2 with e2 | e2
      · exact congrArg Prod.snd (e1.trans e2.symm)
      · exfalso
        apply h.1
        rw [← e1]
        exact List.mem_map.mpr ⟨(id, d'), e2, rfl⟩
      · exfalso
        apply h.1
        rw [← e2]
        exact List.mem_map.mpr ⟨(id, d), e1, rfl⟩
      · exact ih h.2 e1 e2

/-! ## Claims -/

/-- C1: for every frame with a 32-bit sender identity, a type byte, a 32-bit
sequence and a byte payload of length 0 to 113, `DecodeFrame (EncodeFrame f)`
succeeds and reproduces identical senderIdentity, type, sequence and payload
bytes. -/
theorem C1_decode_encode_roundtrip (f : Frame)
    (hs : f.senderID < 2 ^ 32) (_ht : f.type < 256) (hq : f.seq < 2 ^ 32)
    (hpl : f.payload.length ≤ MaxPayloadSize) (hb : ∀ x ∈ f.payload, x < 256) :
    ∃ g, decodeFrame (encodeFrame f).1 = some g ∧ g.senderID = f.senderID ∧
      g.type = f.type ∧ g.seq = f.seq ∧ g.payload = f.payload :=
  ⟨_, decode_encode f hs hq hpl hb, rfl, rfl, rfl, rfl⟩

theorem C1_decode_encode_roundtrip_witness :
    ∃ g, decodeFrame (encodeFrame
        { length := 0, senderID := 0xDEADBEEF, type := 2, seq := 12345,
          payload := [0, 255, 17], crc := 0 }).1 = some g ∧
      g.senderID = 0xDEADBEEF ∧ g.type = 2 ∧ g.seq = 12345 ∧
      g.payload = [0, 255, 17] :=
  C1_decode_encode_roundtrip _ (by decide) (by decide) (by decide) (by decide)
    (by decide)

/-- C8 counterexample: the spec's worked example frame does NOT encode to a
19-byte buffer — the layout (10-byte header + 5 payload + 4 CRC +
1 terminator) totals 20 bytes. -/
theorem C8_nineteen_byte_counterexample :
    (encodeFrame { length := 0, senderID := 0xCAFE, type := FrameTypeData,
                   seq := 42, payload := [1, 2, 3, 4, 5], crc := 0 }).1.length
      ≠ 19 := by
  decide

/-- C8 (amended): the frame senderIdentity=0xCAFE, type=Data, sequence=42,
payload=[1,2,3,4,5] encodes to a 20-byte buffer whose first byte equals 19
(total − 1), and decodes back to the identical field values. -/
theorem C8_concrete_frame_amended :
    (encodeFrame { length := 0, senderID := 0xCAFE, type := FrameTypeData,
                   seq := 42, payload := [1, 2, 3, 4, 5], crc := 0 }).1.length = 20 ∧
    (encodeFrame { length := 0, senderID := 0xCAFE, type := FrameTypeData,
                   seq := 42, payload := [1, 2, 3, 4, 5], crc := 0 }).1.getD 0 0 = 19 ∧
    decodeFrame (encodeFrame
        { length := 0, senderID := 0xCAFE, type := FrameTypeData, seq := 42,
          payload := [1, 2, 3, 4, 5], crc := 0 }).1 =
      some { length := 19, senderID := 0xCAFE, type := FrameTypeData, seq := 42,
             payload := [1, 2, 3, 4, 5], crc := crc32 [1, 2, 3, 4, 5] } := by
  refine ⟨by decide, by decide, by decide⟩

/-- C9 counterexample: `EncodeFrame` does not leave its argument unchanged —
it stores the body length into the frame's `Length` field (and truncates
oversize payloads). -/
theorem C9_purity_counterexample :
    (encodeFrame { length := 0, senderID := 0xCAFE, type := FrameTypeData,
                   seq := 42, payload := [1, 2, 3, 4, 5], crc := 0 }).2 ≠
      { length := 0, senderID := 0xCAFE, type := FrameTypeData,
        seq := 42, payload := [1, 2, 3, 4, 5], crc := 0 } := by
  decide

/-- C9 (amended): `EncodeFrame` uses no shared state, but it mutates its
argument: `Length` is set to the encoded body length (total − 1) and
`Payload` is truncated to `MaxPayloadSize` when longer; `senderID`, `type`,
`seq` and `crc` are left unchanged, and payloads of at most 113 bytes are
left unchanged. -/
theorem C9_encode_argument_effect (f : Frame) :
    (encodeFrame f).2.senderID = f.senderID ∧
    (encodeFrame f).2.type = f.type ∧
    (encodeFrame f).2.seq = f.seq ∧
    (encodeFrame f).2.crc = f.crc ∧
    (encodeFrame f).2.payload =
      (if MaxPayloadSize < f.payload.length then f.payload.take MaxPayloadSize
       else f.payload) ∧
    (encodeFrame f).2.length = headerWithoutLen
      + (encodeFrame f).2.payload.length + CRCSize + TerminalSize := by
  refine ⟨rfl, rfl, rfl, rfl, rfl, ?_⟩
  simp only [encodeFrame]
  by_cases h : MaxPayloadSize < f.payload.length
  · rw [if_pos h]
    have hl : (f.payload.take MaxPayloadSize).length = MaxPayloadSize := by
      rw [List.length_take]
      omega
    rw [hl]
    simp only [headerWithoutLen, FrameHeaderSize, CRCSize, TerminalSize,
      LengthFieldSize, SequenceFieldSize, MaxPayloadSize, MaxFrameSize]
    norm_num
  · rw [if_neg h]
    have h113 : f.payload.length ≤ 113 := by
      simp only [MaxPayloadSize, MaxFrameSize, FrameHeaderSize, CRCSize,
        TerminalSize, LengthFieldSize, SequenceFieldSize] at h
      omega
    rw [if_neg (by
      simp only [headerWithoutLen, FrameHeaderSize, CRCSize, TerminalSize,
        LengthFieldSize, SequenceFieldSize, MaxFrameSize]
      omega)]
    rw [Nat.mod_eq_of_lt (by
      simp only [headerWithoutLen, FrameHeaderSize, CRCSize, TerminalSize,
        LengthFieldSize, SequenceFieldSize]
      omega)]

/-- C5: every encoding (oversize payloads included) is at most 128 bytes,
its first byte equals total length − 1, its last byte is the terminator
0x55; and a successfully decoded frame's payload never exceeds 113 bytes. -/
theorem C5_encode_bounds :
    (∀ f : Frame, (encodeFrame f).1.length ≤ MaxFrameSize ∧
      (encodeFrame f).1.getD 0 0 = (encodeFrame f).1.length - 1 ∧
      (encodeFrame f).1.getD ((encodeFrame f).1.length - 1) 0 = FrameTerminal) ∧
    (∀ (data : List Nat) (g : Frame), decodeFrame data = some g →
      g.payload.length ≤ MaxPayloadSize) := by
  refine ⟨?_, decode_payload_le⟩
  intro f
  by_cases h : MaxPayloadSize < f.payload.length
  · rw [encodeFrame_oversize f h]
    have h113 : (f.payload.take MaxPayloadSize).length ≤ MaxPayloadSize := by
      rw [List.length_take]; omega
    obtain ⟨hL, h0, hT⟩ :=
      encode_facts { f with payload := f.payload.take MaxPayloadSize } h113
    refine ⟨?_, ?_, ?_⟩
    · rw [hL]
      simp only [MaxFrameSize, MaxPayloadSize, FrameHeaderSize, CRCSize,
        TerminalSize, LengthFieldSize, SequenceFieldSize] at h113 ⊢
      omega
    · rw [h0, hL]
      omega
    · rw [hL]
      rw [show 15 + ({ f with payload := f.payload.take MaxPayloadSize }
          : Frame).payload.length - 1
        = 14 + ({ f with payload := f.payload.take MaxPayloadSize }
          : Frame).payload.length from by omega]
      exact hT
  · obtain ⟨hL, h0, hT⟩ := encode_facts f (by omega)
    refine ⟨?_, ?_, ?_⟩
    · rw [hL]
      simp only [MaxFrameSize, MaxPayloadSize, FrameHeaderSize, CRCSize,
        TerminalSize, LengthFieldSize, SequenceFieldSize] at h ⊢
      omega
    · rw [h0, hL]
      omega
    · rw [hL, show 15 + f.payload.length - 1 = 14 + f.payload.length from by omega]
      exact hT

theorem C5_encode_bounds_witness :
    ((encodeFrame
        { length := 0, senderID := 1, type := 2, seq := 0,
          payload := List.replicate 120 9, crc := 0 }).1.length ≤ MaxFrameSize) ∧
    (decodeFrame [14, 1, 0, 0, 0, 2, 0, 0, 0, 0, 0, 0, 0, 0, 0x55] =
      some { length := 14, senderID := 1, type := 2, seq := 0, payload := [],
             crc := 0 } ∧
      ({ length := 14, senderID := 1, type := 2, seq := 0, payload := [],
         crc := 0 } : Frame).payload.length ≤ MaxPayloadSize) :=
  ⟨(C5_encode_bounds.1 _).1,
   by decide,
   C5_encode_bounds.2 [14, 1, 0, 0, 0, 2, 0, 0, 0, 0, 0, 0, 0, 0, 0x55] _
     (by decide)⟩

/-- C4: `DecodeFrame` returns none on short input, bad body length, bad
terminator or CRC mismatch; in particular flipping any bit of the CRC
region of a valid encoding, or replacing its terminator byte, makes
decoding fail, and buffers shorter than 15 bytes always fail. -/
theorem C4_decode_rejects_corruption :
    (∀ data : List Nat, data.length < 15 → decodeFrame data = none) ∧
    (∀ data : List Nat, data.getD 0 0 = 0 ∨ data.length < data.getD 0 0 + 1 →
      decodeFrame data = none) ∧
    (∀ data : List Nat, data.getD (data.getD 0 0) 0 ≠ FrameTerminal →
      decodeFrame data = none) ∧
    (∀ data : List Nat,
      le32At data (FrameHeaderSize + (data.getD 0 0 - 14)) ≠
        crc32 (slice data FrameHeaderSize (FrameHeaderSize + (data.getD 0 0 - 14))) →
      decodeFrame data = none) ∧
    (∀ (f : Frame) (i j : Nat), f.payload.length ≤ MaxPayloadSize →
      (∀ x ∈ f.payload, x < 256) → i < 4 → j < 8 →
      decodeFrame ((encodeFrame f).1.set (FrameHeaderSize + f.payload.length + i)
        ((encodeFrame f).1.getD (FrameHeaderSize + f.payload.length + i) 0
          ^^^ (1 <<< j))) = none) ∧
    (∀ (f : Frame) (v : Nat), f.payload.length ≤ MaxPayloadSize →
      v ≠ FrameTerminal →
      decodeFrame ((encodeFrame f).1.set ((encodeFrame f).1.length - 1) v)
        = none) := by
  refine ⟨fun data h => decode_none_of_short h,
    fun data h => decode_none_of_badlen h,
    fun data h => decode_none_of_badterm h,
    fun data h => decode_none_of_badcrc h, ?_, ?_⟩
  · intro f i j hpl hb hi hj
    rw [encode_crc_byte f hpl i hi]
    have h2j : (1 : Nat) <<< j = 2 ^ j := Nat.one_shiftLeft j
    have h2jle : (2 : Nat) ^ j ≤ 128 := by
      calc (2 : Nat) ^ j ≤ 2 ^ 7 := Nat.pow_le_pow_right (by norm_num) (by omega)
        _ = 128 := by norm_num
    rw [h2j]
    have hbyte : crc32 f.payload / 2 ^ (8 * i) % 256 < 2 ^ 8 :=
      Nat.mod_lt _ (by norm_num)
    have hw : crc32 f.payload / 2 ^ (8 * i) % 256 ^^^ 2 ^ j < 256 := by
      have h2 : (2 : Nat) ^ j < 2 ^ 8 := by
        have h8 : (2 : Nat) ^ 8 = 256 := by norm_num
        omega
      have h3 := Nat.xor_lt_two_pow hbyte h2
      have h8 : (2 : Nat) ^ 8 = 256 := by norm_num
      omega
    exact decode_set_crc_none f hpl hb i _ hi hw
      (xor_ne_self (pow_ne_zero j (by norm_num)))
  · intro f v hpl hv
    have hL := (encode_facts f (by
      simp only [MaxPayloadSize, MaxFrameSize, FrameHeaderSize, CRCSize,
        TerminalSize, LengthFieldSize, SequenceFieldSize] at hpl ⊢
      omega)).1
    rw [hL, show 15 + f.payload.length - 1 = 14 + f.payload.length from by omega]
    exact decode_set_term_none f hpl v hv

theorem C4_decode_rejects_corruption_witness :
    decodeFrame [0x55, 1, 2] = none ∧
    decodeFrame ((encodeFrame
        { length := 0, senderID := 5, type := 2, seq := 9,
          payload := [1, 2, 3], crc := 0 }).1.set (FrameHeaderSize + 3)
      ((encodeFrame
        { length := 0, senderID := 5, type := 2, seq := 9,
          payload := [1, 2, 3], crc := 0 }).1.getD (FrameHeaderSize + 3) 0
        ^^^ (1 <<< 0))) = none ∧
    decodeFrame ((encodeFrame
        { length := 0, senderID := 5, type := 2, seq := 9,
          payload := [1, 2, 3], crc := 0 }).1.set
      ((encodeFrame
        { length := 0, senderID := 5, type := 2, seq := 9,
          payload := [1, 2, 3], crc := 0 }).1.length - 1) 0x54) = none :=
  ⟨C4_decode_rejects_corruption.1 [0x55, 1, 2] (by decide),
   C4_decode_rejects_corruption.2.2.2.2.1
     { length := 0, senderID := 5, type := 2, seq := 9, payload := [1, 2, 3],
       crc := 0 } 0 0 (by decide) (by decide) (by decide) (by decide),
   C4_decode_rejects_corruption.2.2.2.2.2
     { length := 0, senderID := 5, type := 2, seq := 9, payload := [1, 2, 3],
       crc := 0 } 0x54 (by decide) (by decide)⟩

/-- C7: successive successful `SendFrame` calls on one Transmitter produce
frames whose sequence values increment by exactly 1 (stated up to the
32-bit wrap of the Go `uint32` counter, i.e. within a session that has not
exhausted the counter). -/
theorem C7_sequence_increment (t : Transmitter) (ty1 ty2 : Nat)
    (p1 p2 : List Nat) (hpair : t.isPaired = true) (hid : t.deviceID < 2 ^ 32)
    (hseq : t.seq + 1 < 2 ^ 32)
    (hp1 : p1.length ≤ MaxPayloadSize) (hb1 : ∀ x ∈ p1, x < 256)
    (hp2 : p2.length ≤ MaxPayloadSize) (hb2 : ∀ x ∈ p2, x < 256) :
    ∃ t1 b1 b2 f1 f2,
      sendFrame t ty1 p1 = (Except.ok (), t1, [b1]) ∧
      (sendFrame t1 ty2 p2).1 = Except.ok () ∧
      (sendFrame t1 ty2 p2).2.2 = [b2] ∧
      decodeFrame b1 = some f1 ∧ decodeFrame b2 = some f2 ∧
      f2.seq = f1.seq + 1 := by
  have e1 : sendFrame t ty1 p1 = (Except.ok (),
      { t with seq := (t.seq + 1) % 2 ^ 32 },
      [(encodeFrame
          { length := 0, senderID := t.deviceID, type := ty1, seq := t.seq,
            payload := p1, crc := 0 }).1]) := by
    simp only [sendFrame]
    rw [if_neg (by simp [hpair]), if_neg (not_lt.mpr hp1)]
  have e2 : sendFrame { t with seq := (t.seq + 1) % 2 ^ 32 } ty2 p2
      = (Except.ok (),
         { t with seq := ((t.seq + 1) % 2 ^ 32 + 1) % 2 ^ 32 },
         [(encodeFrame
             { length := 0, senderID := t.deviceID, type := ty2,
               seq := (t.seq + 1) % 2 ^ 32, payload := p2, crc := 0 }).1]) := by
    simp only [sendFrame]
    rw [if_neg (by simp [hpair]), if_neg (not_lt.mpr hp2)]
  refine ⟨_, _, _,
    { length := 14 + p1.length, senderID := t.deviceID, type := ty1,
      seq := t.seq, payload := p1, crc := crc32 p1 },
    { length := 14 + p2.length, senderID := t.deviceID, type := ty2,
      seq := (t.seq + 1) % 2 ^ 32, payload := p2, crc := crc32 p2 },
    e1, by rw [e2], by rw [e2], ?_, ?_, ?_⟩
  · exact decode_encode
      { length := 0, senderID := t.deviceID, type := ty1, seq := t.seq,
        payload := p1, crc := 0 } hid (show t.seq < 2 ^ 32 by omega) hp1 hb1
  · exact decode_encode
      { length := 0, senderID := t.deviceID, type := ty2,
        seq := (t.seq + 1) % 2 ^ 32, payload := p2, crc := 0 }
      hid (Nat.mod_lt _ (by norm_num)) hp2 hb2
  · exact Nat.mod_eq_of_lt hseq

theorem C7_sequence_increment_witness :
    ∃ t1 b1 b2 f1 f2,
      sendFrame { deviceID := 3, isPaired := true, seq := 5, pairingKey := 0,
                  receiver := 0 } FrameTypeData [1] = (Except.ok (), t1, [b1]) ∧
      (sendFrame t1 FrameTypeHeartbeat [2]).1 = Except.ok () ∧
      (sendFrame t1 FrameTypeHeartbeat [2]).2.2 = [b2] ∧
      decodeFrame b1 = some f1 ∧ decodeFrame b2 = some f2 ∧
      f2.seq = f1.seq + 1 :=
  C7_sequence_increment _ FrameTypeData FrameTypeHeartbeat [1] [2] rfl
    (by decide) (by decide) (by decide) (by decide) (by decide) (by decide)

/-- C10: when `SendFrame` or `SendDataReliable` fails with `NotPaired` or
`InvalidPayload`, the transmitter state is unchanged (no sequence number is
consumed) and nothing is transmitted. -/
theorem C10_failed_send_no_effect (t : Transmitter) (ty : Nat) (p : List Nat)
    (mr : Nat) (sch : Nat → List (Option (List Nat))) :
    (((sendFrame t ty p).1 = Except.error TxErr.notPaired ∨
      (sendFrame t ty p).1 = Except.error TxErr.invalidPayload) →
      (sendFrame t ty p).2.1 = t ∧ (sendFrame t ty p).2.2 = []) ∧
    (((sendDataReliable t p mr sch).1 = Except.error TxErr.notPaired ∨
      (sendDataReliable t p mr sch).1 = Except.error TxErr.invalidPayload) →
      (sendDataReliable t p mr sch).2.1 = t ∧
        (sendDataReliable t p mr sch).2.2 = []) := by
  constructor
  · simp only [sendFrame]
    by_cases c1 : t.isPaired = false ∧ ty ≠ FrameTypePairing
    · rw [if_pos c1]
      exact fun _ => ⟨rfl, rfl⟩
    · rw [if_neg c1]
      by_cases c2 : MaxPayloadSize < p.length
      · rw [if_pos c2]
        exact fun _ => ⟨rfl, rfl⟩
      · rw [if_neg c2]
        rintro (h | h) <;> simp at h
  · simp only [sendDataReliable]
    by_cases c1 : t.isPaired = false
    · rw [if_pos c1]
      exact fun _ => ⟨rfl, rfl⟩
    · rw [if_neg c1]
      by_cases c2 : MaxPayloadSize < p.length
      · rw [if_pos c2]
        exact fun _ => ⟨rfl, rfl⟩
      · rw [if_neg c2]
        rw [if_neg (by
          have h15 := encode_length_15
            { length := 0, senderID := t.deviceID, type := FrameTypeData,
              seq := t.seq, payload := p, crc := 0 }
          have hF : FrameHeaderSize = 10 := rfl
          omega)]
        rintro (h | h) <;>
          rcases ra_result t.seq _ sch mr 0 with h2 | h2 <;>
          rw [h2] at h <;> simp at h

theorem C10_failed_send_no_effect_witness :
    ((sendFrame
        { deviceID := 1, isPaired := false, seq := 5, pairingKey := 0,
          receiver := 0 } FrameTypeData [1]).2.1
      = { deviceID := 1, isPaired := false, seq := 5, pairingKey := 0,
          receiver := 0 } ∧
     (sendFrame
        { deviceID := 1, isPaired := false, seq := 5, pairingKey := 0,
          receiver := 0 } FrameTypeData [1]).2.2 = []) ∧
    ((sendDataReliable
        { deviceID := 1, isPaired := false, seq := 5, pairingKey := 0,
          receiver := 0 } [1] 2 (fun _ => [])).2.1
      = { deviceID := 1, isPaired := false, seq := 5, pairingKey := 0,
          receiver := 0 } ∧
     (sendDataReliable
        { deviceID := 1, isPaired := false, seq := 5, pairingKey := 0,
          receiver := 0 } [1] 2 (fun _ => [])).2.2 = []) :=
  ⟨(C10_failed_send_no_effect _ FrameTypeData [1] 2 (fun _ => [])).1
     (Or.inl rfl),
   (C10_failed_send_no_effect _ FrameTypeData [1] 2 (fun _ => [])).2
     (Or.inl rfl)⟩

/-- C3: `SendDataReliable` fails `NotPaired` / `InvalidPayload` up front
with no state change; otherwise one sequence number (the pre-call counter)
is used for every transmitted attempt, the result is success on the first
window containing a matching Ack (after exactly k+1 transmissions when the
first matching window is attempt k), `Timeout` after `maxRetries`
transmissions when no window ever matches, and the inter-attempt backoffs
are 20 + 10·attemptIndex ms (shown in full for `maxRetries` = 3). -/
theorem C3_sendDataReliable_retry (t : Transmitter) (data : List Nat)
    (mr : Nat) (sch : Nat → List (Option (List Nat)))
    (hpair : t.isPaired = true) (hd : data.length ≤ MaxPayloadSize) :
    (∀ t2 : Transmitter, t2.isPaired = false →
      sendDataReliable t2 data mr sch = (Except.error TxErr.notPaired, t2, [])) ∧
    (∀ d2 : List Nat, MaxPayloadSize < d2.length →
      sendDataReliable t d2 mr sch = (Except.error TxErr.invalidPayload, t, [])) ∧
    (∀ b, TxEvent.tx b ∈ (sendDataReliable t data mr sch).2.2 →
      b = (encodeFrame
        { length := 0, senderID := t.deviceID, type := FrameTypeData,
          seq := t.seq, payload := data, crc := 0 }).1) ∧
    ((∀ i, windowHasAck t.seq (sch i) = false) →
      (sendDataReliable t data mr sch).1 = Except.error TxErr.timeout ∧
      txCount (sendDataReliable t data mr sch).2.2 = mr) ∧
    (∀ k, k < mr → (∀ i, i < k → windowHasAck t.seq (sch i) = false) →
      windowHasAck t.seq (sch k) = true →
      (sendDataReliable t data mr sch).1 = Except.ok () ∧
      txCount (sendDataReliable t data mr sch).2.2 = k + 1) ∧
    ((∀ i, windowHasAck t.seq (sch i) = false) →
      (sendDataReliable t data 3 sch).2.2 =
        [TxEvent.tx (encodeFrame
           { length := 0, senderID := t.deviceID, type := FrameTypeData,
             seq := t.seq, payload := data, crc := 0 }).1,
         TxEvent.backoff 20,
         TxEvent.tx (encodeFrame
           { length := 0, senderID := t.deviceID, type := FrameTypeData,
             seq := t.seq, payload := data, crc := 0 }).1,
         TxEvent.backoff 30,
         TxEvent.tx (encodeFrame
           { length := 0, senderID := t.deviceID, type := FrameTypeData,
             seq := t.seq, payload := data, crc := 0 }).1]) := by
  have key : ∀ m : Nat, sendDataReliable t data m sch =
      ((reliableAttempts t.seq (encodeFrame
          { length := 0, senderID := t.deviceID, type := FrameTypeData,
            seq := t.seq, payload := data, crc := 0 }).1 sch 0 m).1,
       { t with seq := (t.seq + 1) % 2 ^ 32 },
       (reliableAttempts t.seq (encodeFrame
          { length := 0, senderID := t.deviceID, type := FrameTypeData,
            seq := t.seq, payload := data, crc := 0 }).1 sch 0 m).2) := by
    intro m
    simp only [sendDataReliable]
    rw [if_neg (by simp [hpair]), if_neg (not_lt.mpr hd)]
    rw [if_neg (by
      have h15 := encode_length_15
        { length := 0, senderID := t.deviceID, type := FrameTypeData,
          seq := t.seq, payload := data, crc := 0 }
      have hF : FrameHeaderSize = 10 := rfl
      omega)]
  refine ⟨?_, ?_, ?_, ?_, ?_, ?_⟩
  · intro t2 h2
    simp only [sendDataReliable]
    rw [if_pos h2]
  · intro d2 h2
    simp only [sendDataReliable]
    rw [if_neg (by simp [hpair]), if_pos h2]
  · intro b hb
    rw [key mr] at hb
    exact ra_tx_all t.seq _ sch mr 0 b hb
  · intro hnever
    rw [key mr]
    exact ra_never t.seq _ sch hnever mr 0
  · intro k hk hbefore hat
    rw [key mr]
    exact ra_first t.seq _ sch k mr 0 hk
      (fun i hi => by rw [Nat.zero_add]; exact hbefore i hi)
      (by rw [Nat.zero_add]; exact hat)
  · intro hnever
    rw [key 3]
    simp only [reliableAttempts]
    rw [if_neg (by rw [hnever 0]; exact Bool.false_ne_true)]
    rw [if_neg (by omega : (2 : Nat) ≠ 0)]
    rw [if_neg (by rw [hnever 1]; exact Bool.false_ne_true)]
    rw [if_neg (by omega : (1 : Nat) ≠ 0)]
    rw [if_neg (by rw [hnever 2]; exact Bool.false_ne_true)]
    rw [if_pos trivial]

theorem C3_sendDataReliable_retry_witness :
    (sendDataReliable
        { deviceID := 7, isPaired := true, seq := 4, pairingKey := 0,
          receiver := 0 } [8, 9] 3 (fun _ => [])).1
      = Except.error TxErr.timeout ∧
    txCount (sendDataReliable
        { deviceID := 7, isPaired := true, seq := 4, pairingKey := 0,
          receiver := 0 } [8, 9] 3 (fun _ => [])).2.2 = 3 :=
  (C3_sendDataReliable_retry
    { deviceID := 7, isPaired := true, seq := 4, pairingKey := 0,
      receiver := 0 } [8, 9] 3 (fun _ => []) rfl (by decide)).2.2.2.1
    (fun _ => rfl)

/-- C6: after `CleanupDeadDevices` runs at time `now`, every registry entry
with `now - lastSeen > DeviceTimeout` is absent from the registry and was
handed out with its paired flag already set to false, while every entry
within the timeout window is retained. -/
theorem C6_eviction (r : Receiver) (now : Int)
    (hnd : (r.pairedDevices.map Prod.fst).Nodup)
    (id : Nat) (d : RDevice) (hmem : (id, d) ∈ r.pairedDevices) :
    (DeviceTimeout < now - d.lastSeen →
      (∀ e ∈ (cleanupDeadDevices r now).1.pairedDevices, e.1 ≠ id) ∧
      { d with isPaired := false } ∈ (cleanupDeadDevices r now).2) ∧
    (now - d.lastSeen ≤ DeviceTimeout →
      (id, d) ∈ (cleanupDeadDevices r now).1.pairedDevices) := by
  constructor
  · intro hold
    constructor
    · intro e he hne
      simp only [cleanupDeadDevices] at he
      obtain ⟨hin, hp⟩ := List.mem_filter.mp he
      have he2 : (id, e.2) ∈ r.pairedDevices := by
        rw [← hne]
        exact hin
      have hde : e.2 = d := assoc_unique hnd he2 hmem
      rw [decide_eq_true_eq, hde] at hp
      omega
    · simp only [cleanupDeadDevices]
      exact List.mem_map.mpr ⟨(id, d),
        List.mem_filter.mpr ⟨hmem, by rw [decide_eq_true_eq]; exact hold⟩, rfl⟩
  · intro hle
    simp only [cleanupDeadDevices]
    exact List.mem_filter.mpr ⟨hmem, by rw [decide_eq_true_eq]; exact hle⟩

theorem C6_eviction_witness :
    ((∀ e ∈ (cleanupDeadDevices
        { deviceID := 9, pairedDevices :=
          [(1, { id := 1, pairingKey := 0, isPaired := true, lastSeen := 0 }),
           (2, { id := 2, pairingKey := 0, isPaired := true,
                 lastSeen := 10000 })] } 20000).1.pairedDevices, e.1 ≠ 1) ∧
      ({ id := 1, pairingKey := 0, isPaired := false, lastSeen := 0 } : RDevice)
        ∈ (cleanupDeadDevices
        { deviceID := 9, pairedDevices :=
          [(1, { id := 1, pairingKey := 0, isPaired := true, lastSeen := 0 }),
           (2, { id := 2, pairingKey := 0, isPaired := true,
                 lastSeen := 10000 })] } 20000).2) ∧
    ((2 : Nat), ({ id := 2, pairingKey := 0, isPaired := true,
                   lastSeen := 10000 } : RDevice)) ∈ (cleanupDeadDevices
        { deviceID := 9, pairedDevices :=
          [(1, { id := 1, pairingKey := 0, isPaired := true, lastSeen := 0 }),
           (2, { id := 2, pairingKey := 0, isPaired := true,
                 lastSeen := 10000 })] } 20000).1.pairedDevices :=
  ⟨(C6_eviction _ 20000 (by decide) 1
      { id := 1, pairingKey := 0, isPaired := true, lastSeen := 0 }
      (by decide)).1 (by decide),
   (C6_eviction _ 20000 (by decide) 2
      { id := 2, pairingKey := 0, isPaired := true, lastSeen := 10000 }
      (by decide)).2 (by decide)⟩

/-- C2 (the pairing handshake the spec and the repository's own
`TestTransmitter_Pairing` expect): it cannot succeed in the code as
written, because the transmitter emits Frame-layout pairing bytes while
`transport/receiver.go` still parses them with the legacy Packet codec.
Concretely, for transmitter 0xCAFE pairing with receiver 0xBEEF (pairing
key 0x12345678, sequence 0): the receiver decodes the pairing bytes into a
Packet whose embedded target identity is read from the wrong offsets, so
the registry is left unchanged and no Ack is sent; the receiver's own
`SendAck` bytes (12-byte legacy Packet) can never be decoded as a Frame
(minimum 15 bytes); hence `StartPairing` exhausts its polls and returns
`Timeout` with the paired flag still false. -/
theorem C2_pairing_format_mismatch :
    (startPairing
        { deviceID := 0xCAFE, isPaired := false, seq := 0,
          pairingKey := 0x12345678, receiver := 0 } 0xBEEF
        [some (sendAckBytes { deviceID := 0xBEEF, pairedDevices := [] }),
         none]).2.2
      = [(encodeFrame
          { length := 0, senderID := 0xCAFE, type := FrameTypePairing, seq := 0,
            payload := le32 0x12345678 ++ le32 0xBEEF, crc := 0 }).1] ∧
    (decodePacket (encodeFrame
        { length := 0, senderID := 0xCAFE, type := FrameTypePairing, seq := 0,
          payload := le32 0x12345678 ++ le32 0xBEEF, crc := 0 }).1).map
      Packet.type = some PacketTypePairing ∧
    (decodePacket (encodeFrame
        { length := 0, senderID := 0xCAFE, type := FrameTypePairing, seq := 0,
          payload := le32 0x12345678 ++ le32 0xBEEF, crc := 0 }).1).map
      (processPacket { deviceID := 0xBEEF, pairedDevices := [] } 1000)
      = some ({ deviceID := 0xBEEF, pairedDevices := [] }, []) ∧
    decodeFrame (sendAckBytes { deviceID := 0xBEEF, pairedDevices := [] })
      = none ∧
    (startPairing
        { deviceID := 0xCAFE, isPaired := false, seq := 0,
          pairingKey := 0x12345678, receiver := 0 } 0xBEEF
        [some (sendAckBytes { deviceID := 0xBEEF, pairedDevices := [] }),
         none]).1 = Except.error TxErr.timeout ∧
    (startPairing
        { deviceID := 0xCAFE, isPaired := false, seq := 0,
          pairingKey := 0x12345678, receiver := 0 } 0xBEEF
        [some (sendAckBytes { deviceID := 0xBEEF, pairedDevices := [] }),
         none]).2.1.isPaired = false := by
  refine ⟨by decide, by decide, by decide, by decide, rfl, rfl⟩

end Nrfcomm
